import Mathlib

/-!
Verification of the adaptive grid-trading core: regime detection
(src/strategy/regime_detector.py), grid strategy and trailing stop
(src/strategy/atr_grid_strategy.py) and the capital/risk guard
(src/strategy/risk_manager.py).

Python floats are modelled by ℚ; pandas series by Lists of ℚ.
Conventions carried over from pandas and noted at each definition:
the first row of a shifted column is missing, `max` skips missing
values, a rolling mean shorter than its window is missing and any
comparison with a missing value is false.
-/

/-- Market regime classification (the MarketRegime enum, defined identically
in regime_detector.py and atr_grid_strategy.py). -/
inductive MarketRegime where
  | stable_trend
  | volatile_trend
  | sideways_quiet
  | sideways_chop
  | unknown
deriving DecidableEq, Repr

/-- The string value of each MarketRegime enum member. -/
def MarketRegime.value : MarketRegime → String
  | .stable_trend => "stable_trend"
  | .volatile_trend => "volatile_trend"
  | .sideways_quiet => "sideways_quiet"
  | .sideways_chop => "sideways_chop"
  | .unknown => "unknown"

/-- One OHLCV bar; high, low and close are the columns the indicator code
reads. -/
structure Bar where
  high : ℚ
  low : ℚ
  close : ℚ
deriving DecidableEq, Repr

/-- Tail of the pandas `ewm(span, adjust=False).mean()` recurrence:
each output is `(1 - a) * previous + a * x`. -/
def ewmAux (a : ℚ) : ℚ → List ℚ → List ℚ
  | _, [] => []
  | prev, x :: xs =>
    let y := (1 - a) * prev + a * x
    y :: ewmAux a y xs

/-- pandas `Series.ewm(span, adjust=False).mean()`: the first output equals
the first input, then the recurrence with `a = 2 / (span + 1)` applies. -/
def ewmMean (span : ℕ) : List ℚ → List ℚ
  | [] => []
  | x :: xs => x :: ewmAux (2 / ((span : ℚ) + 1)) x xs

/-- True range of one bar given the previous close. On the first row the
shifted close is missing, `max(axis=1)` skips the missing columns and the
true range is `high - low`. -/
def trueRange (b : Bar) : Option ℚ → ℚ
  | none => b.high - b.low
  | some pc => max (b.high - b.low) (max |b.high - pc| |b.low - pc|)

/-- The true-range column of a bar series (`tr` in calculate_adx and
calculate_atr). -/
def trList : Option ℚ → List Bar → List ℚ
  | _, [] => []
  | pc, b :: bs => trueRange b pc :: trList (some b.close) bs

/-- The `plus_dm` column: 0 on the first row (comparisons with the missing
shifted values are false), then `up_move` when `up_move > down_move` and
`up_move > 0`, else 0. -/
def plusDmList : Option Bar → List Bar → List ℚ
  | _, [] => []
  | none, b :: bs => 0 :: plusDmList (some b) bs
  | some p, b :: bs =>
    let up_move := b.high - p.high
    let down_move := p.low - b.low
    (if down_move < up_move ∧ 0 < up_move then up_move else 0)
      :: plusDmList (some b) bs

/-- The `minus_dm` column: 0 on the first row, then `down_move` when
`down_move > up_move` and `down_move > 0`, else 0. -/
def minusDmList : Option Bar → List Bar → List ℚ
  | _, [] => []
  | none, b :: bs => 0 :: minusDmList (some b) bs
  | some p, b :: bs =>
    let up_move := b.high - p.high
    let down_move := p.low - b.low
    (if up_move < down_move ∧ 0 < down_move then down_move else 0)
      :: minusDmList (some b) bs

/-- The epsilon constant 1e-10 guarding the DX division. -/
def dxEps : ℚ := 1 / 10 ^ 10

/-- calculate_adx as a series: smoothed true range, directional indicators,
`DX = 100 * |+DI - -DI| / (+DI + -DI + 1e-10)` and the smoothed DX.
Identical in regime_detector.py and atr_grid_strategy.py. -/
def adxSeries (window_short : ℕ) (df : List Bar) : List ℚ :=
  let atr := ewmMean window_short (trList none df)
  let plus_di :=
    List.zipWith (fun p a => 100 * p / a) (ewmMean window_short (plusDmList none df)) atr
  let minus_di :=
    List.zipWith (fun m a => 100 * m / a) (ewmMean window_short (minusDmList none df)) atr
  let dx := List.zipWith (fun p m => 100 * |p - m| / (p + m + dxEps)) plus_di minus_di
  ewmMean window_short dx

/-- The last ADX value (`adx.iloc[-1]`), 0 on an empty series. -/
def calculate_adx (window_short : ℕ) (df : List Bar) : ℚ :=
  (adxSeries window_short df).getLastD 0

/-- Mean of the last `w` entries: pandas `rolling(window=w).mean()` at the
last index, missing (`none`) when the series is shorter than the window. -/
def rollingMeanLast (w : ℕ) (xs : List ℚ) : Option ℚ :=
  if w = 0 ∨ xs.length < w then none
  else some ((xs.reverse.take w).sum / (w : ℚ))

/-- calculate_atr_ratio: current ATR over the rolling mean of ATR; returns
1.0 when the rolling mean is missing or not positive (`avg_atr > 0` is
false, also for a missing value). Identical in both editions. -/
def calculate_atr_ratio (window_short window_long : ℕ) (df : List Bar) : ℚ :=
  let atr := ewmMean window_short (trList none df)
  let current_atr := atr.getLastD 0
  match rollingMeanLast window_long atr with
  | some avg_atr => if 0 < avg_atr then current_atr / avg_atr else 1
  | none => 1

namespace RegimeDetectorMod

/-- RegimeDetector of regime_detector.py: window and period configuration. -/
structure RegimeDetector where
  window_short : ℕ
  window_long : ℕ
  ema_period : ℕ
deriving DecidableEq, Repr

/-- Class constant ADX_THRESHOLD = 25.0. -/
def ADX_THRESHOLD : ℚ := 25

/-- Class constant ATR_VOL_THRESHOLD = 1.2. -/
def ATR_VOL_THRESHOLD : ℚ := 6 / 5

/-- The constructor defaults window_short=14, window_long=50, ema_period=200. -/
def defaultDetector : RegimeDetector := ⟨14, 50, 200⟩

/-- RegimeAnalysis dataclass of regime_detector.py. -/
structure RegimeAnalysis where
  regime : MarketRegime
  trend_strength : ℚ
  volatility_ratio : ℚ
  ema_200 : ℚ
  atr_14 : ℚ
  is_bullish : Bool
  is_bearish : Bool
  confidence : ℚ
deriving DecidableEq, Repr

/-- RegimeDetector.detect_regime of regime_detector.py: Unknown under
window_long rows, else the 4-quadrant split with `is_trending = adx > 25`
and `is_volatile = atr_ratio >= 1.2`. -/
def detect_regime (d : RegimeDetector) (df : List Bar) : MarketRegime :=
  if df.length < d.window_long then .unknown
  else
    let current_adx := calculate_adx d.window_short df
    let atr_ratio := calculate_atr_ratio d.window_short d.window_long df
    let is_trending := ADX_THRESHOLD < current_adx
    let is_volatile := ATR_VOL_THRESHOLD ≤ atr_ratio
    if is_trending then
      if is_volatile then .volatile_trend else .stable_trend
    else
      if is_volatile then .sideways_chop else .sideways_quiet

/-- RegimeDetector.analyze: the short-series branch returns Unknown with
trend_strength 0, volatility_ratio 1.0, ema_200 0, atr_14 0, flags false and
confidence 0; otherwise all metrics are computed and confidence is the
clamped mean distance from the two thresholds. -/
def analyze (d : RegimeDetector) (df : List Bar) : RegimeAnalysis :=
  if df.length < d.window_long then
    ⟨.unknown, 0, 1, 0, 0, false, false, 0⟩
  else
    let current_adx := calculate_adx d.window_short df
    let current_atr := (ewmMean d.window_short (trList none df)).getLastD 0
    let atr_ratio := calculate_atr_ratio d.window_short d.window_long df
    let current_ema := (ewmMean d.ema_period (df.map Bar.close)).getLastD 0
    let current_price := (df.map Bar.close).getLastD 0
    let adx_distance := |current_adx - ADX_THRESHOLD| / ADX_THRESHOLD
    let vol_distance := |atr_ratio - ATR_VOL_THRESHOLD| / ATR_VOL_THRESHOLD
    ⟨detect_regime d df, current_adx, atr_ratio, current_ema, current_atr,
     decide (current_ema < current_price), decide (current_price < current_ema),
     min 1 ((adx_distance + vol_distance) / 2)⟩

end RegimeDetectorMod

namespace AtrGridMod

/-- GridDirection enum of atr_grid_strategy.py. -/
inductive GridDirection where
  | long
  | short
  | neutral
  | both
deriving DecidableEq, Repr

/-- RegimeConfig dataclass: per-regime tuning parameters. -/
structure RegimeConfig where
  base_spacing_pct : ℚ
  tp_mult : ℚ
  sl_drawdown : ℚ
  max_levels : ℕ
  volatility_threshold : ℚ
  ai_filter_strict : Bool
deriving DecidableEq, Repr

/-- RegimeDetector of atr_grid_strategy.py: windows plus the two
environment-sourced thresholds. -/
structure RegimeDetector where
  window_short : ℕ
  window_long : ℕ
  adx_threshold : ℚ
  atr_vol_threshold : ℚ
deriving DecidableEq, Repr

/-- RegimeDetector.detect_regime of atr_grid_strategy.py: `(Unknown, 0.0,
1.0)` under window_long rows, else the 4-quadrant split (`adx >
adx_threshold` for trending, `atr_ratio < atr_vol_threshold` for low
volatility) together with the computed adx and atr ratio. -/
def detect_regime (d : RegimeDetector) (df : List Bar) : MarketRegime × ℚ × ℚ :=
  if df.length < d.window_long then (.unknown, 0, 1)
  else
    let adx := calculate_adx d.window_short df
    let atr_ratio := calculate_atr_ratio d.window_short d.window_long df
    let regime :=
      if d.adx_threshold < adx then
        if atr_ratio < d.atr_vol_threshold then MarketRegime.stable_trend
        else MarketRegime.volatile_trend
      else
        if atr_ratio < d.atr_vol_threshold then MarketRegime.sideways_quiet
        else MarketRegime.sideways_chop
    (regime, adx, atr_ratio)

/-- ATRGridStrategy configuration. The REGIME_CONFIGS dictionary (populated
from the production environment) is modelled by the `configs` map; spacing
multipliers and thresholds are carried as plain fields. -/
structure ATRGridStrategy where
  ema_period : ℕ
  atr_period : ℕ
  max_levels : ℕ
  spacing_low : ℚ
  spacing_normal : ℚ
  spacing_high : ℚ
  vol_low_threshold : ℚ
  vol_high_threshold : ℚ
  sl_atr_mult : ℚ
  regime_detector : RegimeDetector
  configs : MarketRegime → Option RegimeConfig

/-- get_regime_config: `REGIME_CONFIGS.get(regime, REGIME_CONFIGS.get(UNKNOWN))` —
the entry for the regime, else the entry for Unknown, else none. -/
def get_regime_config (s : ATRGridStrategy) (regime : MarketRegime) :
    Option RegimeConfig :=
  (s.configs regime).orElse (fun _ => s.configs MarketRegime.unknown)

/-- should_skip_entry: skip with reason `AI Filter (<regime>)` exactly when
the regime's config exists, its ai_filter_strict flag is set, the market is
bearish and the volatility ratio exceeds the config threshold. The adx
argument is accepted and unused, as in the source. -/
def should_skip_entry (s : ATRGridStrategy) (regime : MarketRegime) (adx : ℚ)
    (is_bearish : Bool) (volatility_ratio : ℚ) : Bool × String :=
  match get_regime_config s regime with
  | none => (false, "")
  | some config =>
    if config.ai_filter_strict = true ∧ is_bearish = true ∧
        config.volatility_threshold < volatility_ratio then
      (true, "AI Filter (" ++ regime.value ++ ")")
    else (false, "")

/-- calculate_indicators: `(0.0, 0.0)` under ema_period rows, else the last
EMA of closes and the last smoothed true range. -/
def calculate_indicators (s : ATRGridStrategy) (df : List Bar) : ℚ × ℚ :=
  if df.length < s.ema_period then (0, 0)
  else
    ((ewmMean s.ema_period (df.map Bar.close)).getLastD 0,
     (ewmMean s.atr_period (trList none df)).getLastD 0)

/-- update_trailing_sl: returns `(new_sl, new_highest, new_lowest)`. The
Long branch raises the high-water mark and adopts `new_highest * (1 -
sl_drawdown)` only when it exceeds the current stop; every direction other
than Long takes the Short branch, symmetric with the low-water mark. -/
def update_trailing_sl (direction : GridDirection) (current_price current_sl
    highest_price lowest_price sl_drawdown : ℚ) : ℚ × ℚ × ℚ :=
  if direction = GridDirection.long then
    let new_highest :=
      if highest_price < current_price then current_price else highest_price
    let trailing_sl := new_highest * (1 - sl_drawdown)
    let new_sl := if current_sl < trailing_sl then trailing_sl else current_sl
    (new_sl, new_highest, lowest_price)
  else
    let new_lowest :=
      if current_price < lowest_price then current_price else lowest_price
    let trailing_sl := new_lowest * (1 + sl_drawdown)
    let new_sl := if trailing_sl < current_sl then trailing_sl else current_sl
    (new_sl, highest_price, new_lowest)

/-- Iterated update_trailing_sl over a sequence of prices, threading the
`(sl, highest, lowest)` state exactly as GridState stores it between calls. -/
def trail_chain (direction : GridDirection) (sl_drawdown : ℚ) :
    ℚ × ℚ × ℚ → List ℚ → ℚ × ℚ × ℚ
  | st, [] => st
  | st, p :: ps =>
    trail_chain direction sl_drawdown
      (update_trailing_sl direction p st.1 st.2.1 st.2.2 sl_drawdown) ps

/-- The dictionary returned by generate_signal. -/
structure Signal where
  current_price : ℚ
  ema : ℚ
  atr : ℚ
  adx : ℚ
  atr_ratio : ℚ
  regime : MarketRegime
  direction : GridDirection
  is_bullish : Bool
  is_bearish : Bool
  skip_entry : Bool
  skip_reason : String

/-- generate_signal: indicators, regime detection, trend flags against the
EMA, the skip filter and the Long/Short/Neutral direction. -/
def generate_signal (s : ATRGridStrategy) (df : List Bar) (current_price : ℚ) :
    Signal :=
  let ind := calculate_indicators s df
  let det := detect_regime s.regime_detector df
  let ema := ind.1
  let atr := ind.2
  let regime := det.1
  let adx := det.2.1
  let atr_ratio := det.2.2
  let is_bullish := decide (ema < current_price)
  let is_bearish := decide (current_price < ema)
  let sk := should_skip_entry s regime adx is_bearish atr_ratio
  let direction :=
    if is_bullish then GridDirection.long
    else if is_bearish then GridDirection.short
    else GridDirection.neutral
  ⟨current_price, ema, atr, adx, atr_ratio, regime, direction,
   is_bullish, is_bearish, sk.1, sk.2⟩

end AtrGridMod

namespace RiskMod

/-- RiskLevel enum of risk_manager.py. -/
inductive RiskLevel where
  | safe
  | warning
  | blocked
  | emergency
deriving DecidableEq, Repr

/-- RiskCheckResult dataclass. The numeric parts of the formatted message
strings and the optional details dictionary are diagnostic only and are
elided; the message field keeps the fixed prefix of each branch. -/
structure RiskCheckResult where
  allowed : Bool
  risk_level : RiskLevel
  margin_ratio : ℚ
  message : String
deriving DecidableEq, Repr

/-- CapitalGuard configuration. -/
structure CapitalGuard where
  max_margin_ratio : ℚ
  warning_threshold : ℚ
  emergency_drawdown : ℚ
deriving DecidableEq, Repr

/-- The constructor defaults: max_margin_ratio=0.50, warning_threshold=0.40,
emergency_drawdown=0.15. -/
def defaultGuard : CapitalGuard := ⟨1 / 2, 2 / 5, 3 / 20⟩

/-- CapitalGuard.check_entry: Emergency/denied on non-positive equity, else
Blocked/denied when the margin ratio exceeds max_margin_ratio, Warning/allowed
when it exceeds warning_threshold, else Safe/allowed. -/
def check_entry (g : CapitalGuard) (equity current_margin proposed_margin : ℚ) :
    RiskCheckResult :=
  if equity ≤ 0 then
    ⟨false, RiskLevel.emergency, 1, "Zero or negative equity"⟩
  else
    let total_margin := current_margin + proposed_margin
    let mr := total_margin / equity
    if g.max_margin_ratio < mr then
      ⟨false, RiskLevel.blocked, mr, "Margin limit exceeded"⟩
    else if g.warning_threshold < mr then
      ⟨true, RiskLevel.warning, mr, "Warning: Margin at"⟩
    else
      ⟨true, RiskLevel.safe, mr, "Entry allowed: Margin at"⟩

/-- CapitalGuard.check_grid_entry: delegates with the full-grid margin. -/
def check_grid_entry (g : CapitalGuard) (equity margin_per_level : ℚ)
    (max_levels : ℕ) (current_margin : ℚ) : RiskCheckResult :=
  check_entry g equity current_margin (margin_per_level * (max_levels : ℚ))

/-- CapitalGuard.check_emergency_stop: Safe/allowed when no peak equity is
recorded; else denied as Emergency when the drawdown reaches
emergency_drawdown, otherwise allowed with Safe under a drawdown of 0.10 and
Warning from 0.10 up. -/
def check_emergency_stop (g : CapitalGuard) (current_equity peak_equity : ℚ) :
    RiskCheckResult :=
  if peak_equity ≤ 0 then
    ⟨true, RiskLevel.safe, 0, "No peak equity recorded"⟩
  else
    let drawdown := (peak_equity - current_equity) / peak_equity
    if g.emergency_drawdown ≤ drawdown then
      ⟨false, RiskLevel.emergency, drawdown, "EMERGENCY STOP"⟩
    else
      ⟨true, if drawdown < 1 / 10 then RiskLevel.safe else RiskLevel.warning,
       drawdown, "Drawdown"⟩

/-- The dictionary returned by calculate_position_size. -/
structure PositionSize where
  desired_value : ℚ
  desired_margin : ℚ
  actual_value : ℚ
  actual_margin : ℚ
  quantity : ℚ
  adjusted : Bool
  margin_ratio : ℚ
  remaining_margin : ℚ
deriving DecidableEq, Repr

/-- CapitalGuard.calculate_position_size: desired margin from the capital
fraction and leverage, clamped to the margin still available under
max_margin_ratio; quantity is value over price, 0 on a non-positive price. -/
def calculate_position_size (g : CapitalGuard) (equity capital_pct : ℚ)
    (leverage : ℤ) (current_price current_margin : ℚ) : PositionSize :=
  let desired_value := equity * capital_pct
  let desired_margin := desired_value / (leverage : ℚ)
  let safe_balance := equity * g.max_margin_ratio
  let available_margin := max 0 (safe_balance - current_margin)
  let clamped :=
    if available_margin < desired_margin then
      (available_margin, available_margin * (leverage : ℚ), true)
    else (desired_margin, desired_value, false)
  let actual_margin := clamped.1
  let actual_value := clamped.2.1
  let quantity := if 0 < current_price then actual_value / current_price else 0
  ⟨desired_value, desired_margin, actual_value, actual_margin, quantity,
   clamped.2.2,
   if 0 < equity then (current_margin + actual_margin) / equity else 0,
   available_margin - actual_margin⟩

/-- RiskManager: the capital guard plus the two mutable account fields. -/
structure RiskManager where
  capital_guard : CapitalGuard
  daily_loss_limit : ℚ
  peak_equity : ℚ
  daily_starting_equity : ℚ
deriving DecidableEq, Repr

/-- RiskManager.update_peak_equity: raise the high-water mark when the
current equity exceeds it. -/
def update_peak_equity (rm : RiskManager) (current_equity : ℚ) : RiskManager :=
  if rm.peak_equity < current_equity then
    ⟨rm.capital_guard, rm.daily_loss_limit, current_equity,
     rm.daily_starting_equity⟩
  else rm

/-- RiskManager.check_all_limits: update the peak, run the emergency check
and return its denial immediately; else apply the daily-loss limit when a
daily starting equity is recorded; else delegate to check_entry. The updated
manager (mutated peak_equity) is returned alongside. -/
def check_all_limits (rm : RiskManager)
    (current_equity current_margin proposed_margin : ℚ) :
    RiskCheckResult × RiskManager :=
  let rm1 := update_peak_equity rm current_equity
  let emergency_check :=
    check_emergency_stop rm1.capital_guard current_equity rm1.peak_equity
  if emergency_check.allowed = false then (emergency_check, rm1)
  else
    let ds := rm1.daily_starting_equity
    if 0 < ds then
      let daily_pnl := (current_equity - ds) / ds
      if daily_pnl ≤ -rm1.daily_loss_limit then
        (⟨false, RiskLevel.blocked, |daily_pnl|, "Daily loss limit reached"⟩, rm1)
      else
        (check_entry rm1.capital_guard current_equity current_margin
          proposed_margin, rm1)
    else
      (check_entry rm1.capital_guard current_equity current_margin
        proposed_margin, rm1)

end RiskMod

/-! Concrete instances used by the theorems below. -/

/-- A flat bar. -/
def bar1 : Bar := ⟨1, 1, 1⟩

/-- A series of 50 flat bars: long enough for regime detection with the
default windows, shorter than the default EMA period. -/
def df50 : List Bar := List.replicate 50 bar1

/-- The strategy edition's detector with its environment defaults:
windows 14/50 and thresholds defaulting to 0. -/
def envDetector : AtrGridMod.RegimeDetector := ⟨14, 50, 0, 0⟩

/-- A strategy with the environment defaults (ema_period 200, atr_period 14,
numeric parameters defaulting to 0) and an empty regime-config table. -/
def defaultStrategy : AtrGridMod.ATRGridStrategy :=
  ⟨200, 14, 0, 0, 0, 0, 0, 0, 0, envDetector, fun _ => none⟩

/-- A guard whose emergency drawdown is 0.5, used to separate the hardcoded
0.10 warning split from a split at 0.67 of the configured drawdown. -/
def c6Guard : RiskMod.CapitalGuard := ⟨1 / 2, 2 / 5, 1 / 2⟩

/-- A fresh risk manager: default guard, daily loss limit 0.05, no peak and
no daily starting equity recorded. -/
def exampleManager : RiskMod.RiskManager := ⟨RiskMod.defaultGuard, 1 / 20, 0, 0⟩

/-- A strategy regime config with the strict AI filter set and volatility
threshold 1.5. -/
def strictConfig : AtrGridMod.RegimeConfig := ⟨1 / 100, 1, 1 / 20, 5, 3 / 2, true⟩

/-- A strategy whose table maps every concrete regime to `strictConfig`. -/
def strictStrategy : AtrGridMod.ATRGridStrategy :=
  ⟨200, 14, 0, 0, 0, 0, 0, 0, 0, envDetector,
   fun r => if r = MarketRegime.unknown then none else some strictConfig⟩

/-! Helper lemmas shared by several claims. -/

/-- The bump pattern `if a < b then b else a` is the maximum. -/
theorem if_lt_eq_max (a b : ℚ) : (if a < b then b else a) = max a b := by
  rcases le_or_lt b a with h | h
  · rw [if_neg (not_lt.mpr h), max_eq_left h]
  · rw [if_pos h, max_eq_right h.le]

/-- The drop pattern `if a < b then a else b` is the minimum. -/
theorem if_lt_eq_min (a b : ℚ) : (if a < b then a else b) = min b a := by
  rcases le_or_lt b a with h | h
  · rw [if_neg (not_lt.mpr h), min_eq_left h]
  · rw [if_pos h, min_eq_right h.le]

/-- The Long branch of update_trailing_sl in closed form. -/
theorem update_trailing_sl_long_eq (cp cs hp lp d : ℚ) :
    AtrGridMod.update_trailing_sl AtrGridMod.GridDirection.long cp cs hp lp d =
      (max cs (max hp cp * (1 - d)), max hp cp, lp) := by
  simp [AtrGridMod.update_trailing_sl, if_lt_eq_max]

/-- The Short branch of update_trailing_sl in closed form. -/
theorem update_trailing_sl_short_eq (cp cs hp lp d : ℚ) :
    AtrGridMod.update_trailing_sl AtrGridMod.GridDirection.short cp cs hp lp d =
      (min cs (min lp cp * (1 + d)), hp, min lp cp) := by
  simp [AtrGridMod.update_trailing_sl, if_lt_eq_min]

/-- Chained Long trailing-stop updates never lower the stop. -/
theorem trail_chain_long_mono (d : ℚ) (prices : List ℚ) :
    ∀ sl hi lo : ℚ,
      sl ≤ (AtrGridMod.trail_chain AtrGridMod.GridDirection.long d (sl, hi, lo) prices).1 := by
  induction prices with
  | nil => intro sl hi lo; simp [AtrGridMod.trail_chain]
  | cons p ps ih =>
    intro sl hi lo
    have h1 : sl ≤ (AtrGridMod.update_trailing_sl AtrGridMod.GridDirection.long p sl hi lo d).1 := by
      rw [update_trailing_sl_long_eq]
      exact le_max_left _ _
    have h2 := ih (AtrGridMod.update_trailing_sl AtrGridMod.GridDirection.long p sl hi lo d).1
      (AtrGridMod.update_trailing_sl AtrGridMod.GridDirection.long p sl hi lo d).2.1
      (AtrGridMod.update_trailing_sl AtrGridMod.GridDirection.long p sl hi lo d).2.2
    rw [AtrGridMod.trail_chain]
    exact le_trans h1 (by simpa using h2)

/-- Chained Short trailing-stop updates never raise the stop. -/
theorem trail_chain_short_mono (d : ℚ) (prices : List ℚ) :
    ∀ sl hi lo : ℚ,
      (AtrGridMod.trail_chain AtrGridMod.GridDirection.short d (sl, hi, lo) prices).1 ≤ sl := by
  induction prices with
  | nil => intro sl hi lo; simp [AtrGridMod.trail_chain]
  | cons p ps ih =>
    intro sl hi lo
    have h1 : (AtrGridMod.update_trailing_sl AtrGridMod.GridDirection.short p sl hi lo d).1 ≤ sl := by
      rw [update_trailing_sl_short_eq]
      exact min_le_left _ _
    have h2 := ih (AtrGridMod.update_trailing_sl AtrGridMod.GridDirection.short p sl hi lo d).1
      (AtrGridMod.update_trailing_sl AtrGridMod.GridDirection.short p sl hi lo d).2.1
      (AtrGridMod.update_trailing_sl AtrGridMod.GridDirection.short p sl hi lo d).2.2
    rw [AtrGridMod.trail_chain]
    exact le_trans (by simpa using h2) h1

/-! Claim C1. -/

/-- C1 counterexample: the empty series has fewer rows than the default
long window, yet analyze reports volatility_ratio 1, not 0 — the numeric
metrics of the short-series result are not all zero. -/
theorem c1_counterexample :
    ([] : List Bar).length < RegimeDetectorMod.defaultDetector.window_long ∧
    (RegimeDetectorMod.analyze RegimeDetectorMod.defaultDetector []).volatility_ratio = 1 ∧
    (RegimeDetectorMod.analyze RegimeDetectorMod.defaultDetector []).volatility_ratio ≠ 0 := by
  refine ⟨by decide, ?_, ?_⟩ <;> simp [RegimeDetectorMod.analyze, RegimeDetectorMod.defaultDetector]

/-- C1 (amended): with fewer rows than the long window, analyze returns
regime Unknown, confidence 0, trend_strength 0, ema 0, atr 0, both flags
false and volatility_ratio equal to 1 (not 0), regardless of content; the
strategy edition's detect_regime likewise returns (Unknown, 0, 1). -/
theorem c1_short_series_unknown (d : RegimeDetectorMod.RegimeDetector)
    (d2 : AtrGridMod.RegimeDetector) (df : List Bar)
    (h : df.length < d.window_long) (h2 : df.length < d2.window_long) :
    RegimeDetectorMod.analyze d df =
      ⟨MarketRegime.unknown, 0, 1, 0, 0, false, false, 0⟩ ∧
    AtrGridMod.detect_regime d2 df = (MarketRegime.unknown, 0, 1) := by
  constructor
  · simp [RegimeDetectorMod.analyze, h]
  · simp [AtrGridMod.detect_regime, h2]

/-- C1 witness: the amended statement applied to the empty series with the
default detectors. -/
theorem c1_witness :
    RegimeDetectorMod.analyze RegimeDetectorMod.defaultDetector [] =
      ⟨MarketRegime.unknown, 0, 1, 0, 0, false, false, 0⟩ ∧
    AtrGridMod.detect_regime envDetector [] = (MarketRegime.unknown, 0, 1) :=
  c1_short_series_unknown RegimeDetectorMod.defaultDetector envDetector []
    (by decide) (by decide)

/-! Claim C3. -/

/-- C3: update_trailing_sl is a one-directional ratchet. A Long call returns
the bumped high-water mark, the stop `max(current_sl, new_highest * (1 -
sl_drawdown))` (never below the current stop); a Short call is symmetric
with the low-water mark (never above the current stop); chained calls keep
the Long stop non-decreasing and the Short stop non-increasing. -/
theorem c3_trailing_ratchet :
    (∀ cp cs hp lp d : ℚ,
      AtrGridMod.update_trailing_sl AtrGridMod.GridDirection.long cp cs hp lp d =
        (max cs (max hp cp * (1 - d)), max hp cp, lp) ∧
      cs ≤ (AtrGridMod.update_trailing_sl AtrGridMod.GridDirection.long cp cs hp lp d).1 ∧
      AtrGridMod.update_trailing_sl AtrGridMod.GridDirection.short cp cs hp lp d =
        (min cs (min lp cp * (1 + d)), hp, min lp cp) ∧
      (AtrGridMod.update_trailing_sl AtrGridMod.GridDirection.short cp cs hp lp d).1 ≤ cs) ∧
    (∀ (d : ℚ) (prices : List ℚ) (sl hi lo : ℚ),
      sl ≤ (AtrGridMod.trail_chain AtrGridMod.GridDirection.long d (sl, hi, lo) prices).1 ∧
      (AtrGridMod.trail_chain AtrGridMod.GridDirection.short d (sl, hi, lo) prices).1 ≤ sl) := by
  constructor
  · intro cp cs hp lp d
    refine ⟨update_trailing_sl_long_eq cp cs hp lp d, ?_,
      update_trailing_sl_short_eq cp cs hp lp d, ?_⟩
    · rw [update_trailing_sl_long_eq]; exact le_max_left _ _
    · rw [update_trailing_sl_short_eq]; exact min_le_left _ _
  · intro d prices sl hi lo
    exact ⟨trail_chain_long_mono d prices sl hi lo, trail_chain_short_mono d prices sl hi lo⟩

/-! Claim C2. -/

/-- Quadrant split of the strategy edition (low volatility tested with
`atr_ratio < atr_vol_threshold`): full characterization of each outcome. -/
theorem quadrant_lt_iff (ta tv a r : ℚ) :
    ((if ta < a then
        if r < tv then MarketRegime.stable_trend else MarketRegime.volatile_trend
      else
        if r < tv then MarketRegime.sideways_quiet else MarketRegime.sideways_chop) =
          MarketRegime.stable_trend ↔ ta < a ∧ r < tv) ∧
    ((if ta < a then
        if r < tv then MarketRegime.stable_trend else MarketRegime.volatile_trend
      else
        if r < tv then MarketRegime.sideways_quiet else MarketRegime.sideways_chop) =
          MarketRegime.volatile_trend ↔ ta < a ∧ tv ≤ r) ∧
    ((if ta < a then
        if r < tv then MarketRegime.stable_trend else MarketRegime.volatile_trend
      else
        if r < tv then MarketRegime.sideways_quiet else MarketRegime.sideways_chop) =
          MarketRegime.sideways_quiet ↔ a ≤ ta ∧ r < tv) ∧
    ((if ta < a then
        if r < tv then MarketRegime.stable_trend else MarketRegime.volatile_trend
      else
        if r < tv then MarketRegime.sideways_quiet else MarketRegime.sideways_chop) =
          MarketRegime.sideways_chop ↔ a ≤ ta ∧ tv ≤ r) ∧
    (if ta < a then
        if r < tv then MarketRegime.stable_trend else MarketRegime.volatile_trend
      else
        if r < tv then MarketRegime.sideways_quiet else MarketRegime.sideways_chop) ≠
          MarketRegime.unknown := by
  by_cases h1 : ta < a <;> by_cases h2 : r < tv
  · simp [h1, h2, not_le.mpr h1, not_le.mpr h2]
  · simp [h1, h2, not_le.mpr h1, not_lt.mp h2]
  · simp [h1, h2, not_lt.mp h1, not_le.mpr h2]
  · simp [h1, h2, not_lt.mp h1, not_lt.mp h2]

/-- With enough rows, the strategy edition's detect_regime is the quadrant
split applied to the computed adx and atr ratio. -/
theorem atrGrid_detect_regime_eq (d : AtrGridMod.RegimeDetector) (df : List Bar)
    (h : d.window_long ≤ df.length) :
    AtrGridMod.detect_regime d df =
      ((if d.adx_threshold < calculate_adx d.window_short df then
          if calculate_atr_ratio d.window_short d.window_long df < d.atr_vol_threshold then
            MarketRegime.stable_trend
          else MarketRegime.volatile_trend
        else
          if calculate_atr_ratio d.window_short d.window_long df < d.atr_vol_threshold then
            MarketRegime.sideways_quiet
          else MarketRegime.sideways_chop),
       calculate_adx d.window_short df,
       calculate_atr_ratio d.window_short d.window_long df) := by
  simp only [AtrGridMod.detect_regime, if_neg (not_lt.mpr h)]

/-- With enough rows, the hardcoded edition's detect_regime is the same
quadrant split at thresholds 25 and 1.2. -/
theorem regimeDetector_detect_regime_eq (d : RegimeDetectorMod.RegimeDetector)
    (df : List Bar) (h : d.window_long ≤ df.length) :
    RegimeDetectorMod.detect_regime d df =
      (if RegimeDetectorMod.ADX_THRESHOLD < calculate_adx d.window_short df then
        if calculate_atr_ratio d.window_short d.window_long df <
            RegimeDetectorMod.ATR_VOL_THRESHOLD then
          MarketRegime.stable_trend
        else MarketRegime.volatile_trend
      else
        if calculate_atr_ratio d.window_short d.window_long df <
            RegimeDetectorMod.ATR_VOL_THRESHOLD then
          MarketRegime.sideways_quiet
        else MarketRegime.sideways_chop) := by
  simp only [RegimeDetectorMod.detect_regime, if_neg (not_lt.mpr h)]
  by_cases h2 : calculate_atr_ratio d.window_short d.window_long df <
      RegimeDetectorMod.ATR_VOL_THRESHOLD
  · simp [h2, not_le.mpr h2]
  · simp [h2, not_lt.mp h2]

/-- With enough rows, the strategy edition never reports Unknown. -/
theorem atrGrid_detect_regime_ne_unknown (d : AtrGridMod.RegimeDetector)
    (df : List Bar) (h : d.window_long ≤ df.length) :
    (AtrGridMod.detect_regime d df).1 ≠ MarketRegime.unknown := by
  rw [atrGrid_detect_regime_eq d df h]
  exact (quadrant_lt_iff d.adx_threshold d.atr_vol_threshold
    (calculate_adx d.window_short df)
    (calculate_atr_ratio d.window_short d.window_long df)).2.2.2.2

/-- C2: with at least window_long rows, both editions of detect_regime
return exactly one of the four concrete regimes, characterized by the strict
quadrant split on the computed (adx, atr_ratio): adx at the threshold is
Sideways, atr_ratio at the volatility threshold is high-volatility. -/
theorem c2_regime_quadrants (d : AtrGridMod.RegimeDetector)
    (d2 : RegimeDetectorMod.RegimeDetector) (df : List Bar)
    (h : d.window_long ≤ df.length) (h2 : d2.window_long ≤ df.length) :
    ((AtrGridMod.detect_regime d df).2.1 = calculate_adx d.window_short df ∧
     (AtrGridMod.detect_regime d df).2.2 =
       calculate_atr_ratio d.window_short d.window_long df) ∧
    ((AtrGridMod.detect_regime d df).1 = MarketRegime.stable_trend ↔
      d.adx_threshold < (AtrGridMod.detect_regime d df).2.1 ∧
      (AtrGridMod.detect_regime d df).2.2 < d.atr_vol_threshold) ∧
    ((AtrGridMod.detect_regime d df).1 = MarketRegime.volatile_trend ↔
      d.adx_threshold < (AtrGridMod.detect_regime d df).2.1 ∧
      d.atr_vol_threshold ≤ (AtrGridMod.detect_regime d df).2.2) ∧
    ((AtrGridMod.detect_regime d df).1 = MarketRegime.sideways_quiet ↔
      (AtrGridMod.detect_regime d df).2.1 ≤ d.adx_threshold ∧
      (AtrGridMod.detect_regime d df).2.2 < d.atr_vol_threshold) ∧
    ((AtrGridMod.detect_regime d df).1 = MarketRegime.sideways_chop ↔
      (AtrGridMod.detect_regime d df).2.1 ≤ d.adx_threshold ∧
      d.atr_vol_threshold ≤ (AtrGridMod.detect_regime d df).2.2) ∧
    ((AtrGridMod.detect_regime d df).1 ≠ MarketRegime.unknown) ∧
    ((RegimeDetectorMod.detect_regime d2 df = MarketRegime.stable_trend ↔
      RegimeDetectorMod.ADX_THRESHOLD < calculate_adx d2.window_short df ∧
      calculate_atr_ratio d2.window_short d2.window_long df <
        RegimeDetectorMod.ATR_VOL_THRESHOLD) ∧
     (RegimeDetectorMod.detect_regime d2 df = MarketRegime.volatile_trend ↔
      RegimeDetectorMod.ADX_THRESHOLD < calculate_adx d2.window_short df ∧
      RegimeDetectorMod.ATR_VOL_THRESHOLD ≤
        calculate_atr_ratio d2.window_short d2.window_long df) ∧
     (RegimeDetectorMod.detect_regime d2 df = MarketRegime.sideways_quiet ↔
      calculate_adx d2.window_short df ≤ RegimeDetectorMod.ADX_THRESHOLD ∧
      calculate_atr_ratio d2.window_short d2.window_long df <
        RegimeDetectorMod.ATR_VOL_THRESHOLD) ∧
     (RegimeDetectorMod.detect_regime d2 df = MarketRegime.sideways_chop ↔
      calculate_adx d2.window_short df ≤ RegimeDetectorMod.ADX_THRESHOLD ∧
      RegimeDetectorMod.ATR_VOL_THRESHOLD ≤
        calculate_atr_ratio d2.window_short d2.window_long df) ∧
     RegimeDetectorMod.detect_regime d2 df ≠ MarketRegime.unknown) := by
  have he := atrGrid_detect_regime_eq d df h
  have he2 := regimeDetector_detect_regime_eq d2 df h2
  have hq := quadrant_lt_iff d.adx_threshold d.atr_vol_threshold
    (calculate_adx d.window_short df)
    (calculate_atr_ratio d.window_short d.window_long df)
  have hq2 := quadrant_lt_iff RegimeDetectorMod.ADX_THRESHOLD
    RegimeDetectorMod.ATR_VOL_THRESHOLD (calculate_adx d2.window_short df)
    (calculate_atr_ratio d2.window_short d2.window_long df)
  rw [he, he2]
  exact ⟨⟨rfl, rfl⟩, hq.1, hq.2.1, hq.2.2.1, hq.2.2.2.1, hq.2.2.2.2,
    hq2.1, hq2.2.1, hq2.2.2.1, hq2.2.2.2.1, hq2.2.2.2.2⟩

/-- C2 witness: the quadrant characterization applied to a 50-bar series
with the default windows; in particular neither edition reports Unknown. -/
theorem c2_witness :
    (AtrGridMod.detect_regime envDetector df50).1 ≠ MarketRegime.unknown ∧
    RegimeDetectorMod.detect_regime RegimeDetectorMod.defaultDetector df50 ≠
      MarketRegime.unknown := by
  have h := c2_regime_quadrants envDetector RegimeDetectorMod.defaultDetector df50
    (by simp [envDetector, df50]) (by simp [RegimeDetectorMod.defaultDetector, df50])
  exact ⟨h.2.2.2.2.2.1, h.2.2.2.2.2.2.2.2.2.2⟩

/-! Claim C4. -/

/-- C4: with positive equity, check_entry reports the margin ratio
`(current_margin + proposed_margin) / equity` and gates on it: denied as
Blocked exactly when the ratio exceeds max_margin_ratio, else allowed as
Warning exactly when it exceeds warning_threshold, else allowed as Safe. -/
theorem c4_check_entry_gate (g : RiskMod.CapitalGuard)
    (equity current_margin proposed_margin : ℚ) (h : 0 < equity) :
    (RiskMod.check_entry g equity current_margin proposed_margin).margin_ratio =
      (current_margin + proposed_margin) / equity ∧
    ((RiskMod.check_entry g equity current_margin proposed_margin).allowed = false ∧
       (RiskMod.check_entry g equity current_margin proposed_margin).risk_level =
         RiskMod.RiskLevel.blocked ↔
      g.max_margin_ratio < (current_margin + proposed_margin) / equity) ∧
    ((RiskMod.check_entry g equity current_margin proposed_margin).allowed = true ∧
       (RiskMod.check_entry g equity current_margin proposed_margin).risk_level =
         RiskMod.RiskLevel.warning ↔
      (current_margin + proposed_margin) / equity ≤ g.max_margin_ratio ∧
      g.warning_threshold < (current_margin + proposed_margin) / equity) ∧
    ((RiskMod.check_entry g equity current_margin proposed_margin).allowed = true ∧
       (RiskMod.check_entry g equity current_margin proposed_margin).risk_level =
         RiskMod.RiskLevel.safe ↔
      (current_margin + proposed_margin) / equity ≤ g.max_margin_ratio ∧
      (current_margin + proposed_margin) / equity ≤ g.warning_threshold) := by
  have hne : ¬ equity ≤ 0 := not_le.mpr h
  simp only [RiskMod.check_entry, if_neg hne]
  by_cases h1 : g.max_margin_ratio < (current_margin + proposed_margin) / equity
  · simp [h1, not_le.mpr h1]
  · by_cases h2 : g.warning_threshold < (current_margin + proposed_margin) / equity
    · simp [h1, h2, not_lt.mp h1, not_le.mpr h2]
    · simp [h1, h2, not_lt.mp h1, not_lt.mp h2]

/-- C4 witness: equity 10000, margins 2000 + 3000 with the default guard
give ratio exactly 1/2, allowed, at Warning level. -/
theorem c4_witness :
    (RiskMod.check_entry RiskMod.defaultGuard 10000 2000 3000).margin_ratio = 1 / 2 ∧
    (RiskMod.check_entry RiskMod.defaultGuard 10000 2000 3000).allowed = true ∧
    (RiskMod.check_entry RiskMod.defaultGuard 10000 2000 3000).risk_level =
      RiskMod.RiskLevel.warning := by
  have h := c4_check_entry_gate RiskMod.defaultGuard 10000 2000 3000 (by norm_num)
  have hw := h.2.2.1.mpr
    ⟨by norm_num [RiskMod.defaultGuard], by norm_num [RiskMod.defaultGuard]⟩
  exact ⟨by rw [h.1]; norm_num, hw.1, hw.2⟩

/-! Claim C5. -/

/-- C5: check_emergency_stop allows with level Safe whenever peak_equity is
not positive; with positive peak equity the result records the drawdown and
is denied as Emergency exactly when the drawdown reaches emergency_drawdown. -/
theorem c5_emergency_stop_iff (g : RiskMod.CapitalGuard)
    (current_equity peak_equity : ℚ) :
    (peak_equity ≤ 0 →
      (RiskMod.check_emergency_stop g current_equity peak_equity).allowed = true ∧
      (RiskMod.check_emergency_stop g current_equity peak_equity).risk_level =
        RiskMod.RiskLevel.safe) ∧
    (0 < peak_equity →
      (RiskMod.check_emergency_stop g current_equity peak_equity).margin_ratio =
        (peak_equity - current_equity) / peak_equity ∧
      ((RiskMod.check_emergency_stop g current_equity peak_equity).allowed = false ∧
         (RiskMod.check_emergency_stop g current_equity peak_equity).risk_level =
           RiskMod.RiskLevel.emergency ↔
        g.emergency_drawdown ≤ (peak_equity - current_equity) / peak_equity)) := by
  constructor
  · intro hle
    simp [RiskMod.check_emergency_stop, hle]
  · intro hpos
    have hne : ¬ peak_equity ≤ 0 := not_le.mpr hpos
    simp only [RiskMod.check_emergency_stop, if_neg hne]
    by_cases h1 : g.emergency_drawdown ≤ (peak_equity - current_equity) / peak_equity
    · simp [h1]
    · by_cases h2 : (peak_equity - current_equity) / peak_equity < 1 / 10 <;>
        simp [h1, h2]

/-- C5 witness: peak 10000, current 8500 with the default guard give
drawdown exactly 0.15 and a denied Emergency result. -/
theorem c5_witness :
    (RiskMod.check_emergency_stop RiskMod.defaultGuard 8500 10000).margin_ratio = 3 / 20 ∧
    (RiskMod.check_emergency_stop RiskMod.defaultGuard 8500 10000).allowed = false ∧
    (RiskMod.check_emergency_stop RiskMod.defaultGuard 8500 10000).risk_level =
      RiskMod.RiskLevel.emergency := by
  have h := (c5_emergency_stop_iff RiskMod.defaultGuard 8500 10000).2 (by norm_num)
  have he := h.2.mpr (by norm_num [RiskMod.defaultGuard])
  exact ⟨by rw [h.1]; norm_num, he.1, he.2⟩

/-! Claim C6. -/

/-- C6 counterexample: with emergency_drawdown 0.5, a drawdown of 0.2 lies
below 0.67 of the configured drawdown (0.335), so the claim predicts Safe,
but check_emergency_stop reports Warning: the split sits at the hardcoded
0.10, not at emergency_drawdown times 0.67. -/
theorem c6_counterexample :
    ((10 : ℚ) - 8) / 10 < c6Guard.emergency_drawdown * (67 / 100) ∧
    ((10 : ℚ) - 8) / 10 < c6Guard.emergency_drawdown ∧
    (RiskMod.check_emergency_stop c6Guard 8 10).allowed = true ∧
    (RiskMod.check_emergency_stop c6Guard 8 10).risk_level =
      RiskMod.RiskLevel.warning := by
  refine ⟨by norm_num [c6Guard], by norm_num [c6Guard], ?_, ?_⟩ <;>
    norm_num [RiskMod.check_emergency_stop, c6Guard]

/-- C6 (amended): with positive peak equity and a drawdown below
emergency_drawdown, the allowed result's level is Safe exactly when the
drawdown is below the hardcoded 0.10 and Warning from 0.10 up: the split is
a fixed 0.10, independent of emergency_drawdown, not a configurable 0.67
fraction of it. -/
theorem c6_warning_split (g : RiskMod.CapitalGuard) (current_equity peak_equity : ℚ)
    (hpos : 0 < peak_equity)
    (hdd : (peak_equity - current_equity) / peak_equity < g.emergency_drawdown) :
    (RiskMod.check_emergency_stop g current_equity peak_equity).allowed = true ∧
    (RiskMod.check_emergency_stop g current_equity peak_equity).risk_level =
      (if (peak_equity - current_equity) / peak_equity < 1 / 10 then
        RiskMod.RiskLevel.safe
      else RiskMod.RiskLevel.warning) := by
  have hne : ¬ peak_equity ≤ 0 := not_le.mpr hpos
  have hlt : ¬ g.emergency_drawdown ≤ (peak_equity - current_equity) / peak_equity :=
    not_le.mpr hdd
  simp only [RiskMod.check_emergency_stop, if_neg hne, if_neg hlt]
  exact ⟨trivial, trivial⟩

/-- C6 witness: the amended split applied to peak 10000, current 9500 with
the default guard (drawdown 0.05, level Safe). -/
theorem c6_witness :
    (RiskMod.check_emergency_stop RiskMod.defaultGuard 9500 10000).allowed = true ∧
    (RiskMod.check_emergency_stop RiskMod.defaultGuard 9500 10000).risk_level =
      (if ((10000 : ℚ) - 9500) / 10000 < 1 / 10 then RiskMod.RiskLevel.safe
       else RiskMod.RiskLevel.warning) :=
  c6_warning_split RiskMod.defaultGuard 9500 10000 (by norm_num)
    (by norm_num [RiskMod.defaultGuard])

/-! Claim C7. -/

/-- update_peak_equity in closed form: peak becomes the maximum of the old
peak and the current equity; nothing else changes. -/
theorem update_peak_equity_eq (rm : RiskMod.RiskManager) (current_equity : ℚ) :
    RiskMod.update_peak_equity rm current_equity =
      ⟨rm.capital_guard, rm.daily_loss_limit, max rm.peak_equity current_equity,
       rm.daily_starting_equity⟩ := by
  unfold RiskMod.update_peak_equity
  split_ifs with h
  · rw [max_eq_right h.le]
  · rw [max_eq_left (not_lt.mp h)]

/-- C7: check_all_limits updates the peak to the maximum of the previous
peak and the current equity, returns the emergency denial immediately when
the emergency check (at the updated peak) denies, else returns a denied
Blocked result exactly on a breached daily-loss limit with recorded daily
starting equity, and otherwise returns exactly check_entry's result. -/
theorem c7_check_all_limits_order (rm : RiskMod.RiskManager)
    (current_equity current_margin proposed_margin : ℚ) :
    (RiskMod.check_all_limits rm current_equity current_margin
        proposed_margin).2.peak_equity = max rm.peak_equity current_equity ∧
    (RiskMod.check_all_limits rm current_equity current_margin
        proposed_margin).2.capital_guard = rm.capital_guard ∧
    ((RiskMod.check_emergency_stop rm.capital_guard current_equity
        (max rm.peak_equity current_equity)).allowed = false →
      (RiskMod.check_all_limits rm current_equity current_margin
          proposed_margin).1 =
        RiskMod.check_emergency_stop rm.capital_guard current_equity
          (max rm.peak_equity current_equity)) ∧
    ((RiskMod.check_emergency_stop rm.capital_guard current_equity
        (max rm.peak_equity current_equity)).allowed = true →
      0 < rm.daily_starting_equity →
      (current_equity - rm.daily_starting_equity) / rm.daily_starting_equity ≤
        -rm.daily_loss_limit →
      (RiskMod.check_all_limits rm current_equity current_margin
          proposed_margin).1.allowed = false ∧
      (RiskMod.check_all_limits rm current_equity current_margin
          proposed_margin).1.risk_level = RiskMod.RiskLevel.blocked) ∧
    ((RiskMod.check_emergency_stop rm.capital_guard current_equity
        (max rm.peak_equity current_equity)).allowed = true →
      (0 < rm.daily_starting_equity →
        ¬((current_equity - rm.daily_starting_equity) / rm.daily_starting_equity ≤
          -rm.daily_loss_limit)) →
      (RiskMod.check_all_limits rm current_equity current_margin
          proposed_margin).1 =
        RiskMod.check_entry rm.capital_guard current_equity current_margin
          proposed_margin) := by
  simp only [RiskMod.check_all_limits, update_peak_equity_eq]
  by_cases hec : (RiskMod.check_emergency_stop rm.capital_guard current_equity
      (max rm.peak_equity current_equity)).allowed = false
  · simp [hec]
  · by_cases hds : 0 < rm.daily_starting_equity
    · by_cases hdl : (current_equity - rm.daily_starting_equity) /
          rm.daily_starting_equity ≤ -rm.daily_loss_limit
      · simp [hec, hds, hdl]
      · simp [hec, hds, hdl]
    · simp [hec, hds]

/-- C7 witness: a fresh manager (no peak, no daily start) at equity 10000
falls through the emergency and daily-loss steps and returns exactly the
check_entry result, with the peak raised to 10000. -/
theorem c7_witness :
    (RiskMod.check_all_limits exampleManager 10000 2000 1000).2.peak_equity = 10000 ∧
    (RiskMod.check_all_limits exampleManager 10000 2000 1000).1 =
      RiskMod.check_entry RiskMod.defaultGuard 10000 2000 1000 := by
  have h := c7_check_all_limits_order exampleManager 10000 2000 1000
  have hec : (RiskMod.check_emergency_stop exampleManager.capital_guard 10000
      (max exampleManager.peak_equity 10000)).allowed = true := by
    norm_num [RiskMod.check_emergency_stop, exampleManager, RiskMod.defaultGuard]
  refine ⟨?_, ?_⟩
  · rw [h.1]; norm_num [exampleManager]
  · have := h.2.2.2.2 hec (by intro h0; norm_num [exampleManager] at h0)
    simpa [exampleManager] using this

/-! Claim C8. -/

/-- C8: calculate_position_size computes the desired margin from equity,
capital fraction and leverage, clamps it to the margin still available under
max_margin_ratio (setting adjusted exactly when clamping occurs), and prices
the quantity as value over price with a zero fallback on a non-positive
price; the unclamped branch keeps the desired value. -/
theorem c8_position_size_clamp (g : RiskMod.CapitalGuard) (equity capital_pct : ℚ)
    (leverage : ℤ) (current_price current_margin : ℚ) :
    (RiskMod.calculate_position_size g equity capital_pct leverage current_price
        current_margin).desired_value = equity * capital_pct ∧
    (RiskMod.calculate_position_size g equity capital_pct leverage current_price
        current_margin).desired_margin = equity * capital_pct / (leverage : ℚ) ∧
    (RiskMod.calculate_position_size g equity capital_pct leverage current_price
        current_margin).remaining_margin =
      max 0 (equity * g.max_margin_ratio - current_margin) -
        (RiskMod.calculate_position_size g equity capital_pct leverage current_price
          current_margin).actual_margin ∧
    (max 0 (equity * g.max_margin_ratio - current_margin) <
        equity * capital_pct / (leverage : ℚ) →
      (RiskMod.calculate_position_size g equity capital_pct leverage current_price
          current_margin).actual_margin =
        max 0 (equity * g.max_margin_ratio - current_margin) ∧
      (RiskMod.calculate_position_size g equity capital_pct leverage current_price
          current_margin).adjusted = true) ∧
    (equity * capital_pct / (leverage : ℚ) ≤
        max 0 (equity * g.max_margin_ratio - current_margin) →
      (RiskMod.calculate_position_size g equity capital_pct leverage current_price
          current_margin).actual_margin = equity * capital_pct / (leverage : ℚ) ∧
      (RiskMod.calculate_position_size g equity capital_pct leverage current_price
          current_margin).actual_value = equity * capital_pct ∧
      (RiskMod.calculate_position_size g equity capital_pct leverage current_price
          current_margin).adjusted = false) ∧
    (0 < current_price →
      (RiskMod.calculate_position_size g equity capital_pct leverage current_price
          current_margin).quantity =
        (RiskMod.calculate_position_size g equity capital_pct leverage current_price
          current_margin).actual_value / current_price) ∧
    (current_price ≤ 0 →
      (RiskMod.calculate_position_size g equity capital_pct leverage current_price
          current_margin).quantity = 0) := by
  simp only [RiskMod.calculate_position_size]
  by_cases hcl : max 0 (equity * g.max_margin_ratio - current_margin) <
      equity * capital_pct / (leverage : ℚ)
  · by_cases hp : 0 < current_price
    · simp [hcl, hp, not_le.mpr hcl, not_le.mpr hp]
    · simp [hcl, hp, not_le.mpr hcl, not_lt.mp hp]
  · by_cases hp : 0 < current_price
    · simp [hcl, hp, not_lt.mp hcl, not_le.mpr hp]
    · simp [hcl, hp, not_lt.mp hcl, not_lt.mp hp]

/-- C8 witness: equity 10000, capital 25 percent, leverage 3, price 50, no
margin used, default guard: desired margin 2500/3, available 5000, not
clamped, quantity exactly 50. -/
theorem c8_witness :
    (RiskMod.calculate_position_size RiskMod.defaultGuard 10000 (1 / 4) 3 50
        0).desired_margin = 2500 / 3 ∧
    (RiskMod.calculate_position_size RiskMod.defaultGuard 10000 (1 / 4) 3 50
        0).adjusted = false ∧
    (RiskMod.calculate_position_size RiskMod.defaultGuard 10000 (1 / 4) 3 50
        0).quantity = 50 := by
  have h := c8_position_size_clamp RiskMod.defaultGuard 10000 (1 / 4) 3 50 0
  have hna := h.2.2.2.2.1 (by norm_num [RiskMod.defaultGuard])
  refine ⟨by rw [h.2.1]; norm_num, hna.2.2, ?_⟩
  rw [h.2.2.2.2.2.1 (by norm_num), hna.2.1]
  norm_num

/-! Claim C9. -/

/-- C9: should_skip_entry skips (with a non-empty reason) exactly when the
regime's configuration exists with ai_filter_strict set, the market is
bearish and the volatility ratio strictly exceeds the config's volatility
threshold; in every other case it returns no skip and an empty reason. -/
theorem c9_skip_entry_iff (s : AtrGridMod.ATRGridStrategy) (regime : MarketRegime)
    (adx : ℚ) (is_bearish : Bool) (volatility_ratio : ℚ) :
    ((AtrGridMod.should_skip_entry s regime adx is_bearish volatility_ratio).1 = true ↔
      ∃ c, AtrGridMod.get_regime_config s regime = some c ∧
        c.ai_filter_strict = true ∧ is_bearish = true ∧
        c.volatility_threshold < volatility_ratio) ∧
    ((AtrGridMod.should_skip_entry s regime adx is_bearish volatility_ratio).1 = true →
      (AtrGridMod.should_skip_entry s regime adx is_bearish volatility_ratio).2 ≠ "") ∧
    ((AtrGridMod.should_skip_entry s regime adx is_bearish volatility_ratio).1 = false →
      (AtrGridMod.should_skip_entry s regime adx is_bearish volatility_ratio).2 = "") := by
  cases hc : AtrGridMod.get_regime_config s regime with
  | none => simp [AtrGridMod.should_skip_entry, hc]
  | some c =>
    by_cases hcond : c.ai_filter_strict = true ∧ is_bearish = true ∧
        c.volatility_threshold < volatility_ratio
    · refine ⟨?_, ?_, ?_⟩
      · simp [AtrGridMod.should_skip_entry, hc, hcond]
      · intro _
        have hr : (AtrGridMod.should_skip_entry s regime adx is_bearish
            volatility_ratio).2 = "AI Filter (" ++ regime.value ++ ")" := by
          simp [AtrGridMod.should_skip_entry, hc, hcond]
        rw [hr]
        cases regime <;> decide
      · intro hfalse
        have : (AtrGridMod.should_skip_entry s regime adx is_bearish
            volatility_ratio).1 = true := by
          simp [AtrGridMod.should_skip_entry, hc, hcond]
        rw [this] at hfalse
        exact absurd hfalse (by decide)
    · simp [AtrGridMod.should_skip_entry, hc, hcond]

/-- C9 witness: with the strict config, a bearish market and volatility
ratio 2 above the threshold 1.5, entry in a stable trend is skipped with a
non-empty reason; with a bullish market it is not. -/
theorem c9_witness :
    (AtrGridMod.should_skip_entry strictStrategy MarketRegime.stable_trend 30 true
      2).1 = true ∧
    (AtrGridMod.should_skip_entry strictStrategy MarketRegime.stable_trend 30 true
      2).2 ≠ "" ∧
    (AtrGridMod.should_skip_entry strictStrategy MarketRegime.stable_trend 30 false
      2).1 = false := by
  have h := c9_skip_entry_iff strictStrategy MarketRegime.stable_trend 30 true 2
  have hb := c9_skip_entry_iff strictStrategy MarketRegime.stable_trend 30 false 2
  have hcfg : AtrGridMod.get_regime_config strictStrategy MarketRegime.stable_trend =
      some strictConfig := by
    simp [AtrGridMod.get_regime_config, strictStrategy]
  have hskip : (AtrGridMod.should_skip_entry strictStrategy MarketRegime.stable_trend
      30 true 2).1 = true :=
    h.1.mpr ⟨strictConfig, hcfg, rfl, rfl, by norm_num [strictConfig]⟩
  refine ⟨hskip, h.2.1 hskip, ?_⟩
  by_contra hne
  have : (AtrGridMod.should_skip_entry strictStrategy MarketRegime.stable_trend 30
      false 2).1 = true := by
    cases hv : (AtrGridMod.should_skip_entry strictStrategy MarketRegime.stable_trend
        30 false 2).1
    · exact absurd hv hne
    · rfl
  obtain ⟨c, _, _, hfalse, _⟩ := hb.1.mp this
  exact absurd hfalse (by decide)

/-! Claim C10. -/

/-- C10 counterexample: 50 bars are fewer than the default ema_period of
200, yet generate_signal's regime is not Unknown (50 reaches the detector's
window_long), contradicting the claim that the regime returned alongside a
short-history signal is Unknown. -/
theorem c10_counterexample :
    df50.length < defaultStrategy.ema_period ∧
    (AtrGridMod.generate_signal defaultStrategy df50 1).regime ≠
      MarketRegime.unknown := by
  constructor
  · simp [df50, defaultStrategy]
  · have h := atrGrid_detect_regime_ne_unknown envDetector df50
      (by simp [envDetector, df50])
    simpa [AtrGridMod.generate_signal, defaultStrategy] using h

/-- C10 (amended): with fewer rows than ema_period, calculate_indicators
returns (0, 0) and generate_signal with a positive price reports ema 0,
atr 0, is_bullish and direction Long; the regime returned alongside is
Unknown exactly when the series is also shorter than the regime detector's
window_long (otherwise the Long signal comes with a concrete regime). -/
theorem c10_short_history_long_signal (s : AtrGridMod.ATRGridStrategy)
    (df : List Bar) (current_price : ℚ) (h : df.length < s.ema_period)
    (hcp : 0 < current_price) :
    AtrGridMod.calculate_indicators s df = (0, 0) ∧
    (AtrGridMod.generate_signal s df current_price).ema = 0 ∧
    (AtrGridMod.generate_signal s df current_price).atr = 0 ∧
    (AtrGridMod.generate_signal s df current_price).is_bullish = true ∧
    (AtrGridMod.generate_signal s df current_price).direction =
      AtrGridMod.GridDirection.long ∧
    ((AtrGridMod.generate_signal s df current_price).regime =
        MarketRegime.unknown ↔
      df.length < s.regime_detector.window_long) := by
  have hci : AtrGridMod.calculate_indicators s df = (0, 0) := by
    simp [AtrGridMod.calculate_indicators, h]
  refine ⟨hci, ?_, ?_, ?_, ?_, ?_⟩
  · simp [AtrGridMod.generate_signal, hci]
  · simp [AtrGridMod.generate_signal, hci]
  · simp [AtrGridMod.generate_signal, hci, hcp]
  · simp [AtrGridMod.generate_signal, hci, hcp]
  · simp only [AtrGridMod.generate_signal, hci]
    constructor
    · intro hu
      by_contra hnl
      exact atrGrid_detect_regime_ne_unknown s.regime_detector df (not_lt.mp hnl) hu
    · intro hl
      simp [AtrGridMod.detect_regime, hl]

/-- C10 witness: the amended statement applied to the empty series at price
1 with the default strategy. -/
theorem c10_witness :
    AtrGridMod.calculate_indicators defaultStrategy [] = (0, 0) ∧
    (AtrGridMod.generate_signal defaultStrategy [] 1).is_bullish = true ∧
    (AtrGridMod.generate_signal defaultStrategy [] 1).direction =
      AtrGridMod.GridDirection.long ∧
    ((AtrGridMod.generate_signal defaultStrategy [] 1).regime =
        MarketRegime.unknown ↔
      ([] : List Bar).length < defaultStrategy.regime_detector.window_long) := by
  have h := c10_short_history_long_signal defaultStrategy [] 1
    (by simp [defaultStrategy]) (by norm_num)
  exact ⟨h.1, h.2.2.2.1, h.2.2.2.2.1, h.2.2.2.2.2⟩
